import Mathlib

/-!
Verification development for the CoreMind repository.

Scope: the Provider Request Adapter (spec.md sections 3-8) and the shared
frontend axios response interceptor (src/frontend/src/services/api.ts).

The adapter itself lives in backend/app/services/llm_service.py, which is
not among the supplied source files; only its documentation
(src/docs/LLM调用错误修复说明.md, src/docs/API文档.md) and its frontend
callers are.  The adapter definitions below are therefore modelled from the
spec, following its words (dispatch policy of section 4.1, response parsing
and error classification of sections 4.1 and 7) and the documented code
sketch where the spec points at it.
-/

namespace CoreMind

/-- Role tag of a chat message (spec section 3, ChatRequest). -/
inductive Role
  | system
  | user
  | assistant
deriving DecidableEq, Repr

/-- A role-tagged message. -/
structure Message where
  role : Role
  content : String
deriving DecidableEq, Repr

/-- Provider kind enumeration (spec section 3, ProviderProfile). -/
inductive ProviderKind
  | openaiCompatible
  | alibabaCompatible
  | nativeLegacy
  | selfHosted
  | custom
deriving DecidableEq, Repr

/-- Modelled from the spec: ProviderProfile (section 3) — identity of an LLM
backend with kind, model name, optional base URL override, credential
reference and generation parameters.  Temperature is carried as an opaque
integer parameter (the adapter only passes it through). -/
structure ProviderProfile where
  kind : ProviderKind
  modelName : String
  baseUrl : Option String
  credentialRef : String
  temperature : Int
  maxTokens : Nat
deriving DecidableEq, Repr

/-- Modelled from the spec: ChatRequest (section 3) — ordered message
sequence plus the ProviderProfile and a streaming flag. -/
structure ChatRequest where
  messages : List Message
  profile : ProviderProfile
  stream : Bool
deriving DecidableEq, Repr

/-- A small JSON value model, used for request bodies and response bodies. -/
inductive Json
  | null
  | str (s : String)
  | num (n : Int)
  | bool (b : Bool)
  | arr (xs : List Json)
  | obj (fields : List (String × Json))
deriving Repr

/-- Field lookup in a JSON object field list. -/
def lookupField : List (String × Json) → String → Option Json
  | [], _ => none
  | (k, v) :: rest, key => if k = key then some v else lookupField rest key

/-- Field access on a JSON value: only objects have fields. -/
def Json.getField : Json → String → Option Json
  | .obj fs, key => lookupField fs key
  | _, _ => none

/-- Boolean check that one character list starts with another. -/
def startsWithChars : List Char → List Char → Bool
  | [], _ => true
  | _ :: _, [] => false
  | a :: as, b :: bs => a = b && startsWithChars as bs

/-- Boolean check that the first character list occurs inside the second. -/
def occursInChars : List Char → List Char → Bool
  | needle, [] => startsWithChars needle []
  | needle, c :: cs => startsWithChars needle (c :: cs) || occursInChars needle cs

/-- The compatibility-mode marker sniffed in base URLs
(doc: src/docs/LLM调用错误修复说明.md, the compatible-mode path segment). -/
def compatMarker : String := "compatible-mode"

/-- Substring test of the compatibility marker against a base URL. -/
def containsMarker (s : String) : Bool :=
  occursInChars compatMarker.data s.data

/-- The two request/response shapes the adapter knows. -/
inductive ShapeKind
  | compatible
  | native
deriving DecidableEq, Repr

/-- Result of the dispatch decision: which shape to use and the full target
URL. -/
structure Dispatch where
  shape : ShapeKind
  url : String
deriving DecidableEq, Repr

/-- Modelled from the spec: provider-specific default base URLs (section 4.1
rule 3; the Alibaba default is the compatible-mode URL per
src/docs/LLM调用错误修复说明.md section 3). -/
def defaultBaseUrl : ProviderKind → String
  | .openaiCompatible => "https://api.openai.com/v1"
  | .alibabaCompatible => "https://dashscope.aliyuncs.com/compatible-mode/v1"
  | .nativeLegacy => "https://dashscope.aliyuncs.com/api/v1"
  | .selfHosted => "http://localhost:11434/v1"
  | .custom => "https://api.openai.com/v1"

/-- Path suffix of the OpenAI-compatible chat completion endpoint. -/
def compatSuffix : String := "/chat/completions"

/-- Path suffix of the legacy/native completion endpoint
(doc: src/docs/LLM调用错误修复说明.md, the legacy-API branch). -/
def legacySuffix : String := "/api/v1/services/aigc/text-generation/generation"

/-- The native completion URL for a profile: its base URL when set, else the
native default base, with the legacy path suffix appended. -/
def nativeCompletionUrl (p : ProviderProfile) : String :=
  (p.baseUrl.getD (defaultBaseUrl .nativeLegacy)) ++ legacySuffix

/-- Modelled from the spec: the first-match dispatch policy of section 4.1.
Rule 1: a base URL containing the compatibility marker selects the
OpenAI-compatible shape at base/chat/completions.  Rule 2: otherwise the
legacy/native kind selects the native shape at the native completion path.
Rule 3: otherwise, with no base URL, the provider default base plus the
compatible shape.  Rule 4: otherwise the compatible shape against the
supplied base URL verbatim. -/
def dispatch (p : ProviderProfile) : Dispatch :=
  match p.baseUrl with
  | some b =>
    if containsMarker b then
      ⟨.compatible, b ++ compatSuffix⟩
    else if p.kind = .nativeLegacy then
      ⟨.native, b ++ legacySuffix⟩
    else
      ⟨.compatible, b ++ compatSuffix⟩
  | none =>
    if p.kind = .nativeLegacy then
      ⟨.native, defaultBaseUrl .nativeLegacy ++ legacySuffix⟩
    else
      ⟨.compatible, defaultBaseUrl p.kind ++ compatSuffix⟩

/-- String form of a role tag. -/
def roleString : Role → String
  | .system => "system"
  | .user => "user"
  | .assistant => "assistant"

/-- One message serialized as a JSON role+content object. -/
def messageJson (m : Message) : Json :=
  .obj [("role", .str (roleString m.role)), ("content", .str m.content)]

/-- Messages serialized as a JSON array of role+content objects, order
preserved. -/
def messagesJson (ms : List Message) : Json :=
  .arr (ms.map messageJson)

/-- Modelled from the spec: the OpenAI-compatible request body (section 4.1
rule 1) — a single JSON object with model, messages, temperature and
max_tokens, messages passed through unchanged. -/
def compatBody (p : ProviderProfile) (ms : List Message) : Json :=
  .obj [("model", .str p.modelName),
        ("messages", messagesJson ms),
        ("temperature", .num p.temperature),
        ("max_tokens", .num (Int.ofNat p.maxTokens))]

/-- Modelled from the spec: the legacy/native request body (section 4.1
rule 2) — the message list wrapped inside an input.messages object, with
generation parameters alongside. -/
def nativeBody (p : ProviderProfile) (ms : List Message) : Json :=
  .obj [("model", .str p.modelName),
        ("input", .obj [("messages", messagesJson ms)]),
        ("parameters", .obj [("temperature", .num p.temperature),
                             ("max_tokens", .num (Int.ofNat p.maxTokens))])]

/-- An outbound HTTP request as handed to the transport (spec section 6). -/
structure HttpRequest where
  method : String
  url : String
  headers : List (String × String)
  body : Json
deriving Repr

/-- An HTTP response: status code plus JSON body. -/
structure HttpResponse where
  status : Nat
  body : Json
deriving Repr

/-- Outcome of the HTTP transport: a response, or a transport-level failure
with no response (spec section 6). -/
inductive TransportOutcome
  | ok (resp : HttpResponse)
  | netFail
deriving Repr

/-- Request headers: the decrypted API key, when present, only ever enters
the Authorization bearer header. -/
def authHeaders : Option String → List (String × String)
  | some k => [("Authorization", "Bearer " ++ k),
               ("Content-Type", "application/json")]
  | none => [("Content-Type", "application/json")]

/-- The single outbound HTTP request for a chat request: POST to the
dispatched URL with the shape-matching body. -/
def buildHttpRequest (key : Option String) (req : ChatRequest) : HttpRequest :=
  let d := dispatch req.profile
  { method := "POST"
    url := d.url
    headers := authHeaders key
    body := match d.shape with
      | .compatible => compatBody req.profile req.messages
      | .native => nativeBody req.profile req.messages }

/-- Modelled from the spec: content extraction per shape (section 4.1,
response parsing).  Compatible responses are read from
choices[0].message.content, native responses from output.text; any missing
key yields none. -/
def extractContent : ShapeKind → Json → Option String
  | .compatible, body =>
    match body.getField "choices" with
    | some (.arr (c :: _)) =>
      match c.getField "message" with
      | some msg =>
        match msg.getField "content" with
        | some (.str s) => some s
        | _ => none
      | none => none
    | _ => none
  | .native, body =>
    match body.getField "output" with
    | some out =>
      match out.getField "text" with
      | some (.str s) => some s
      | _ => none
    | none => none

/-- Token usage counts, when the provider reports them. -/
structure Usage where
  promptTokens : Nat
  completionTokens : Nat
deriving DecidableEq, Repr

/-- Usage extraction: reads usage.prompt_tokens and usage.completion_tokens
when present. -/
def extractUsage (body : Json) : Option Usage :=
  match body.getField "usage" with
  | some u =>
    match u.getField "prompt_tokens", u.getField "completion_tokens" with
    | some (.num (Int.ofNat p)), some (.num (Int.ofNat c)) => some ⟨p, c⟩
    | _, _ => none
  | none => none

/-- The provider-agnostic success output (spec section 3). -/
structure NormalizedResult where
  content : String
  usage : Option Usage
deriving DecidableEq, Repr

/-- The error taxonomy (spec sections 3 and 7). -/
inductive ErrorKind
  | authentication
  | authorizationQuota
  | notFound
  | rateLimited
  | network
  | malformedResponse
  | unknown
deriving DecidableEq, Repr

/-- The provider-agnostic failure output (spec section 3): kind, original
HTTP status when any, remediation hint, and raw diagnostic context. -/
structure NormalizedError where
  kind : ErrorKind
  httpStatus : Option Nat
  hint : String
  diagnostic : Option Json
deriving Repr

/-- Hint attached to authentication failures (verify key format, activation,
permissions — spec section 4.1 error classification). -/
def authHint : String :=
  "verify API key format, activation, and permissions"

/-- Hint attached to authorization/quota failures. -/
def quotaHint : String := "check balance and model access rights"

/-- Hint attached to not-found failures. -/
def notFoundHint : String := "check model name and base URL"

/-- Hint attached to rate-limit failures. -/
def rateHint : String := "back off or check quota"

/-- Hint attached to network-level failures. -/
def networkHint : String := "check connectivity and proxy settings"

/-- Hint attached to unclassified non-2xx failures. -/
def unknownHint : String := "unexpected provider error"

/-- Hint attached to malformed-response failures. -/
def malformedHint : String := "provider response missing expected content field"

/-- A machine-readable error message in a provider error body, when present. -/
def providerMessage (body : Json) : Option String :=
  match body.getField "message" with
  | some (.str s) => some s
  | _ => none

/-- Appends the provider-supplied detail to a base hint rather than
replacing the classification (spec section 4.1 error classification). -/
def withDetail (base : String) (body : Json) : String :=
  match providerMessage body with
  | some m => base ++ ": " ++ m
  | none => base

/-- Modelled from the spec: non-2xx status classification (section 4.1 error
classification) — 401 authentication, 403 authorization/quota, 404
not-found, 429 rate-limited, anything else unknown with the raw body
attached as diagnostic context. -/
def classifyStatus (status : Nat) (body : Json) : NormalizedError :=
  if status = 401 then
    ⟨.authentication, some status, withDetail authHint body, none⟩
  else if status = 403 then
    ⟨.authorizationQuota, some status, withDetail quotaHint body, none⟩
  else if status = 404 then
    ⟨.notFound, some status, withDetail notFoundHint body, none⟩
  else if status = 429 then
    ⟨.rateLimited, some status, withDetail rateHint body, none⟩
  else
    ⟨.unknown, some status, withDetail unknownHint body, some body⟩

/-- Success statuses are those in the 2xx range. -/
def is2xx (s : Nat) : Bool := 200 ≤ s && s < 300

/-- Modelled from the spec: response handling for the shape chosen at
dispatch (section 4.1 response parsing and error classification).  A
transport failure is a network error; a non-2xx status is classified by
code; a 2xx body missing the expected content field is malformed-response;
otherwise the extracted content is the normalized result. -/
def handleResponse (shape : ShapeKind) : TransportOutcome →
    Except NormalizedError NormalizedResult
  | .netFail => .error ⟨.network, none, networkHint, none⟩
  | .ok resp =>
    if is2xx resp.status then
      match extractContent shape resp.body with
      | some c => .ok ⟨c, extractUsage resp.body⟩
      | none => .error ⟨.malformedResponse, some resp.status, malformedHint,
                        some resp.body⟩
    else
      .error (classifyStatus resp.status resp.body)

/-- Modelled from the spec: the adapter entry point
(send : ChatRequest to NormalizedResult or NormalizedError, section 4.1).
The decrypted key and the HTTP transport are the boundary collaborators of
section 6, passed as parameters; one request is built, handed to the
transport once, and its outcome normalized with the same shape chosen at
dispatch. -/
def send (key : Option String) (transport : HttpRequest → TransportOutcome)
    (req : ChatRequest) : Except NormalizedError NormalizedResult :=
  handleResponse (dispatch req.profile).shape (transport (buildHttpRequest key req))

/-- Instrumented entry point: also returns the list of HTTP requests handed
to the transport during the call, for stating the single-call property. -/
def sendTrace (key : Option String) (transport : HttpRequest → TransportOutcome)
    (req : ChatRequest) :
    Except NormalizedError NormalizedResult × List HttpRequest :=
  let r := buildHttpRequest key req
  (handleResponse (dispatch req.profile).shape (transport r), [r])

/-! Frontend shared axios client, src/frontend/src/services/api.ts.

The response interceptor (api.ts lines 24-35) receives either a fulfilled
response or an error.  Axios itself settles a received HTTP response with
its default validateStatus: a 2xx status fulfills, any other status rejects
with an error carrying the response; a transport failure rejects with an
error carrying no response.  The auth store is not among the supplied
sources; its logout action is modelled from the spec as clearing the stored
token. -/

/-- Browser-visible state the interceptor can touch: the stored auth token
(store/authStore) and the window location. -/
structure FrontendState where
  token : Option String
  location : String
deriving DecidableEq, Repr

/-- Modelled from the spec: useAuthStore.logout from the missing
store/authStore module — clears the stored auth token. -/
def logout (st : FrontendState) : FrontendState :=
  { st with token := none }

/-- An axios error object: error.response is present when an HTTP response
was received, absent on a transport-level failure. -/
structure AxiosError where
  response : Option HttpResponse
deriving Repr

/-- What a request through the axios client produced at the transport level:
an HTTP response, or no response at all. -/
inductive AxiosOutcome
  | response (r : HttpResponse)
  | noResponse
deriving Repr

/-- Axios default settling (validateStatus): a 2xx response goes to the
fulfilled handler, any other status or a transport failure goes to the
rejected handler as an AxiosError. -/
def axiosSettle : AxiosOutcome → Except AxiosError HttpResponse
  | .noResponse => .error ⟨none⟩
  | .response r => if is2xx r.status then .ok r else .error ⟨some r⟩

/-- What the interceptor hands back to the caller: a resolved data value or
a rejected error. -/
inductive InterceptOutput
  | resolved (data : Json)
  | rejected (e : AxiosError)
deriving Repr

/-- The fulfilled branch of api.interceptors.response (api.ts line 25):
returns response.data, touching no state. -/
def onFulfilled (st : FrontendState) (r : HttpResponse) :
    FrontendState × InterceptOutput :=
  (st, .resolved r.body)

/-- The rejected branch of api.interceptors.response (api.ts lines 28-34):
on error.response?.status === 401 it calls logout and sets
window.location.href to /login, and in every case re-rejects the error. -/
def onRejected (st : FrontendState) (e : AxiosError) :
    FrontendState × InterceptOutput :=
  match e.response with
  | some r =>
    if r.status = 401 then
      ({ logout st with location := "/login" }, .rejected e)
    else
      (st, .rejected e)
  | none => (st, .rejected e)

/-- A call through the shared client as the caller sees it: axios settles
the transport outcome, then the matching interceptor branch runs. -/
def interceptResponse (st : FrontendState) (o : AxiosOutcome) :
    FrontendState × InterceptOutput :=
  match axiosSettle o with
  | .ok r => onFulfilled st r
  | .error e => onRejected st e

/-! Helper lemmas. -/

/-- A character list is a prefix of itself followed by anything. -/
theorem startsWithChars_append_self (s t : List Char) :
    startsWithChars s (s ++ t) = true := by
  induction s with
  | nil => rfl
  | cons a as ih => simp [startsWithChars, ih]

/-- A character list is a prefix of itself. -/
theorem startsWithChars_self (s : List Char) :
    startsWithChars s s = true := by
  have h := startsWithChars_append_self s []
  simpa using h

/-- The base hint is always a prefix of the hint with provider detail
appended. -/
theorem startsWithChars_withDetail (base : String) (body : Json) :
    startsWithChars base.data (withDetail base body).data = true := by
  unfold withDetail
  cases providerMessage body with
  | none => exact startsWithChars_self base.data
  | some m =>
    have h : (base ++ ": " ++ m).data = base.data ++ (": " ++ m).data := by
      simp [String.data_append, List.append_assoc]
    rw [h]
    exact startsWithChars_append_self base.data (": " ++ m).data

/-- Appending different suffixes to the same string yields different
strings. -/
theorem append_ne_of_suffix_ne {a s t : String} (h : s ≠ t) :
    a ++ s ≠ a ++ t := by
  intro he
  apply h
  have hd := congrArg String.data he
  rw [String.data_append, String.data_append] at hd
  exact String.ext (List.append_cancel_left hd)

/-! Shared concrete inputs for witnesses and round-trip checks. -/

/-- A sample profile with no base URL, of a non-legacy kind. -/
def sampleProfile : ProviderProfile :=
  ⟨.openaiCompatible, "gpt-4", none, "cred-1", 7, 100⟩

/-- A sample chat request over sampleProfile. -/
def sampleRequest : ChatRequest :=
  ⟨[⟨.user, "hello"⟩], sampleProfile, false⟩

/-- A transport that always fails at the network level. -/
def failTransport : HttpRequest → TransportOutcome := fun _ => .netFail

/-! Claim theorems. -/

/-- C1: every call to send yields exactly one of a NormalizedResult or a
NormalizedError — never both, never neither — and a success is never empty
or partially filled: its content is exactly the string extracted from a 2xx
provider response for the dispatched shape. -/
theorem send_exactly_one_outcome (key : Option String)
    (transport : HttpRequest → TransportOutcome) (req : ChatRequest) :
    (((∃ r, send key transport req = Except.ok r) ∧
        ¬ ∃ e, send key transport req = Except.error e) ∨
      ((∃ e, send key transport req = Except.error e) ∧
        ¬ ∃ r, send key transport req = Except.ok r)) ∧
    (∀ r, send key transport req = Except.ok r →
      ∃ resp, transport (buildHttpRequest key req) = TransportOutcome.ok resp ∧
        is2xx resp.status = true ∧
        extractContent (dispatch req.profile).shape resp.body = some r.content) := by
  constructor
  · cases h : send key transport req with
    | ok r =>
      refine Or.inl ⟨⟨r, rfl⟩, ?_⟩
      rintro ⟨e, he⟩
      exact Except.noConfusion he
    | error e =>
      refine Or.inr ⟨⟨e, rfl⟩, ?_⟩
      rintro ⟨r, hr⟩
      exact Except.noConfusion hr
  · intro r hr
    unfold send at hr
    cases ht : transport (buildHttpRequest key req) with
    | netFail =>
      rw [ht] at hr
      simp [handleResponse] at hr
    | ok resp =>
      rw [ht] at hr
      by_cases h2 : is2xx resp.status = true
      · cases hx : extractContent (dispatch req.profile).shape resp.body with
        | none => simp [handleResponse, h2, hx] at hr
        | some c =>
          simp only [handleResponse, h2, if_true, hx] at hr
          refine ⟨resp, rfl, h2, ?_⟩
          injection hr with h5
          rw [hx, ← h5]
      · simp [handleResponse, h2] at hr

/-- C8: each invocation of send hands exactly one HTTP request to the
transport (so at most one outbound call), and its outcome depends only on
the transport's answer to that single request — there is no retry state and
no second call. -/
theorem send_single_call (key : Option String)
    (t t' : HttpRequest → TransportOutcome) (req : ChatRequest)
    (h : t (buildHttpRequest key req) = t' (buildHttpRequest key req)) :
    (sendTrace key t req).2 = [buildHttpRequest key req] ∧
    (sendTrace key t req).1 = send key t req ∧
    send key t req = send key t' req := by
  refine ⟨rfl, rfl, ?_⟩
  unfold send
  rw [h]

/-- Witness for C8: the single-call property evaluated at a concrete request
and a concrete transport. -/
theorem send_single_call_witness :
    (sendTrace none failTransport sampleRequest).2 =
      [buildHttpRequest none sampleRequest] ∧
    (sendTrace none failTransport sampleRequest).1 =
      send none failTransport sampleRequest ∧
    send none failTransport sampleRequest =
      send none failTransport sampleRequest :=
  send_single_call none failTransport failTransport sampleRequest rfl

/-- C9: the raw decrypted API key never reaches any output of the adapter:
the built request's URL and body are independent of the key (the key enters
only the Authorization header handed to the transport), and two calls with
different keys whose transports answer the single request identically
produce identical NormalizedResult or NormalizedError values. -/
theorem send_key_noninterference (k1 k2 : Option String)
    (t1 t2 : HttpRequest → TransportOutcome) (req : ChatRequest)
    (h : t1 (buildHttpRequest k1 req) = t2 (buildHttpRequest k2 req)) :
    (buildHttpRequest k1 req).url = (buildHttpRequest k2 req).url ∧
    (buildHttpRequest k1 req).body = (buildHttpRequest k2 req).body ∧
    send k1 t1 req = send k2 t2 req := by
  refine ⟨rfl, rfl, ?_⟩
  unfold send
  rw [h]

/-- Witness for C9: key noninterference evaluated with a concrete secret key
against no key at all, over a concrete transport. -/
theorem send_key_noninterference_witness :
    (buildHttpRequest (some "sk-secret") sampleRequest).url =
      (buildHttpRequest none sampleRequest).url ∧
    (buildHttpRequest (some "sk-secret") sampleRequest).body =
      (buildHttpRequest none sampleRequest).body ∧
    send (some "sk-secret") failTransport sampleRequest =
      send none failTransport sampleRequest :=
  send_key_noninterference (some "sk-secret") none failTransport failTransport
    sampleRequest rfl

/-- A profile whose base URL contains the compatibility marker
(doc: src/docs/LLM调用错误修复说明.md, recommended configuration). -/
def markerProfile : ProviderProfile :=
  ⟨.alibabaCompatible, "qwen-max",
   some "https://dashscope.aliyuncs.com/compatible-mode/v1", "cred-2", 7, 2000⟩

/-- The fixed two-message history used by the round-trip property
(spec section 8). -/
def roundHistory : List Message := [⟨.system, "x"⟩, ⟨.user, "hello"⟩]

/-- A chat request with the marker profile and the round-trip history. -/
def markerRequest : ChatRequest := ⟨roundHistory, markerProfile, false⟩

/-- C2: for a profile whose base URL contains the compatibility marker, send
issues a single request targeting base/chat/completions, whose one JSON body
carries model, messages, temperature and max_tokens, the messages serialized
as role+content pairs verbatim and in order. -/
theorem send_compatible_marker (key : Option String)
    (transport : HttpRequest → TransportOutcome) (req : ChatRequest)
    (b : String) (hb : req.profile.baseUrl = some b)
    (hm : containsMarker b = true) :
    ∃ r, (sendTrace key transport req).2 = [r] ∧
      r.url = b ++ compatSuffix ∧
      r.body.getField "model" = some (.str req.profile.modelName) ∧
      r.body.getField "messages" = some (.arr (req.messages.map messageJson)) ∧
      r.body.getField "temperature" = some (.num req.profile.temperature) ∧
      r.body.getField "max_tokens" =
        some (.num (Int.ofNat req.profile.maxTokens)) ∧
      ∀ i (h1 : i < (req.messages.map messageJson).length)
          (h2 : i < req.messages.length),
        (req.messages.map messageJson).get ⟨i, h1⟩ =
          Json.obj [("role", .str (roleString ((req.messages.get ⟨i, h2⟩).role))),
                    ("content", .str ((req.messages.get ⟨i, h2⟩).content))] := by
  have hd : dispatch req.profile = ⟨.compatible, b ++ compatSuffix⟩ := by
    unfold dispatch
    rw [hb]
    simp [hm]
  have hreq : buildHttpRequest key req =
      ⟨"POST", b ++ compatSuffix, authHeaders key,
       compatBody req.profile req.messages⟩ := by
    simp [buildHttpRequest, hd]
  refine ⟨buildHttpRequest key req, rfl, ?_, ?_, ?_, ?_, ?_, ?_⟩
  · rw [hreq]
  · rw [hreq]; rfl
  · rw [hreq]; rfl
  · rw [hreq]; rfl
  · rw [hreq]; rfl
  · intro i h1 h2
    simp [messageJson]

/-- Witness for C2: the compatible-marker shape evaluated at the documented
Alibaba compatible-mode configuration. -/
theorem send_compatible_marker_witness :
    markerRequest.profile.baseUrl =
      some "https://dashscope.aliyuncs.com/compatible-mode/v1" ∧
    containsMarker "https://dashscope.aliyuncs.com/compatible-mode/v1" = true ∧
    (∃ r, (sendTrace (some "sk-test") failTransport markerRequest).2 = [r] ∧
      r.url = "https://dashscope.aliyuncs.com/compatible-mode/v1" ++ compatSuffix ∧
      r.body.getField "model" = some (.str markerRequest.profile.modelName) ∧
      r.body.getField "messages" =
        some (.arr (markerRequest.messages.map messageJson)) ∧
      r.body.getField "temperature" =
        some (.num markerRequest.profile.temperature) ∧
      r.body.getField "max_tokens" =
        some (.num (Int.ofNat markerRequest.profile.maxTokens)) ∧
      ∀ i (h1 : i < (markerRequest.messages.map messageJson).length)
          (h2 : i < markerRequest.messages.length),
        (markerRequest.messages.map messageJson).get ⟨i, h1⟩ =
          Json.obj
            [("role", .str (roleString ((markerRequest.messages.get ⟨i, h2⟩).role))),
             ("content", .str ((markerRequest.messages.get ⟨i, h2⟩).content))]) :=
  ⟨rfl, rfl,
   send_compatible_marker (some "sk-test") failTransport markerRequest
     "https://dashscope.aliyuncs.com/compatible-mode/v1" rfl rfl⟩

/-- C5: a 401 response is classified as an authentication error for every
provider kind, with the authentication hint (key format, activation,
permissions) leading the hint string. -/
theorem send_401_authentication (key : Option String)
    (transport : HttpRequest → TransportOutcome) (req : ChatRequest)
    (body : Json)
    (ht : transport (buildHttpRequest key req) = .ok ⟨401, body⟩) :
    ∃ e, send key transport req = Except.error e ∧
      e.kind = .authentication ∧ e.httpStatus = some 401 ∧
      startsWithChars authHint.data e.hint.data = true := by
  unfold send
  rw [ht]
  exact ⟨⟨.authentication, some 401, withDetail authHint body, none⟩,
         rfl, rfl, rfl, startsWithChars_withDetail authHint body⟩

/-- A transport that always answers 401 with an error message body. -/
def transport401 : HttpRequest → TransportOutcome := fun _ =>
  .ok ⟨401, Json.obj [("message", .str "Invalid API-key provided.")]⟩

/-- Witness for C5: the 401 classification evaluated at a concrete request
and a concrete 401 transport. -/
theorem send_401_authentication_witness :
    transport401 (buildHttpRequest none sampleRequest) =
      .ok ⟨401, Json.obj [("message", .str "Invalid API-key provided.")]⟩ ∧
    (∃ e, send none transport401 sampleRequest = Except.error e ∧
      e.kind = .authentication ∧ e.httpStatus = some 401 ∧
      startsWithChars authHint.data e.hint.data = true) :=
  ⟨rfl, send_401_authentication none transport401 sampleRequest
    (Json.obj [("message", .str "Invalid API-key provided.")]) rfl⟩

/-- C6: a 2xx response whose body lacks the expected content field for the
shape chosen at dispatch yields a malformed-response NormalizedError, not an
unhandled fault. -/
theorem send_missing_content_malformed (key : Option String)
    (transport : HttpRequest → TransportOutcome) (req : ChatRequest)
    (resp : HttpResponse)
    (ht : transport (buildHttpRequest key req) = .ok resp)
    (h2 : is2xx resp.status = true)
    (hx : extractContent (dispatch req.profile).shape resp.body = none) :
    send key transport req =
      Except.error ⟨.malformedResponse, some resp.status, malformedHint,
                    some resp.body⟩ := by
  unfold send
  rw [ht]
  simp [handleResponse, h2, hx]

/-- A transport answering 200 with an empty JSON object body. -/
def emptyOkTransport : HttpRequest → TransportOutcome := fun _ =>
  .ok ⟨200, Json.obj []⟩

/-- Witness for C6: the malformed-response classification evaluated at a
concrete request whose 200 response carries an empty object. -/
theorem send_missing_content_malformed_witness :
    emptyOkTransport (buildHttpRequest none sampleRequest) =
      .ok ⟨200, Json.obj []⟩ ∧
    is2xx 200 = true ∧
    extractContent (dispatch sampleRequest.profile).shape (Json.obj []) = none ∧
    send none emptyOkTransport sampleRequest =
      Except.error ⟨.malformedResponse, some 200, malformedHint,
                    some (Json.obj [])⟩ :=
  ⟨rfl, rfl, rfl,
   send_missing_content_malformed none emptyOkTransport sampleRequest
     ⟨200, Json.obj []⟩ rfl rfl rfl⟩

/-- C7: a profile with no base URL set and not of the legacy kind is sent to
the provider-specific default base URL with the OpenAI-compatible shape. -/
theorem send_default_base (key : Option String)
    (transport : HttpRequest → TransportOutcome) (req : ChatRequest)
    (hb : req.profile.baseUrl = none)
    (hk : req.profile.kind ≠ .nativeLegacy) :
    (dispatch req.profile).shape = .compatible ∧
    ∃ r, (sendTrace key transport req).2 = [r] ∧
      r.url = defaultBaseUrl req.profile.kind ++ compatSuffix ∧
      r.body = compatBody req.profile req.messages := by
  have hd : dispatch req.profile =
      ⟨.compatible, defaultBaseUrl req.profile.kind ++ compatSuffix⟩ := by
    unfold dispatch
    rw [hb]
    simp [hk]
  have hreq : buildHttpRequest key req =
      ⟨"POST", defaultBaseUrl req.profile.kind ++ compatSuffix, authHeaders key,
       compatBody req.profile req.messages⟩ := by
    simp [buildHttpRequest, hd]
  refine ⟨by rw [hd], buildHttpRequest key req, rfl, ?_, ?_⟩
  · rw [hreq]
  · rw [hreq]

/-- Witness for C7: the default-base fallback evaluated at a concrete
OpenAI-kind profile with no base URL. -/
theorem send_default_base_witness :
    sampleRequest.profile.baseUrl = none ∧
    sampleRequest.profile.kind ≠ .nativeLegacy ∧
    ((dispatch sampleRequest.profile).shape = .compatible ∧
     ∃ r, (sendTrace none failTransport sampleRequest).2 = [r] ∧
       r.url = defaultBaseUrl sampleRequest.profile.kind ++ compatSuffix ∧
       r.body = compatBody sampleRequest.profile sampleRequest.messages) :=
  ⟨rfl, by decide,
   send_default_base none failTransport sampleRequest rfl (by decide)⟩

/-- A legacy-kind profile whose base URL nevertheless contains the
compatibility marker — the ambiguous configuration spec section 9 flags. -/
def legacyMarkerProfile : ProviderProfile :=
  ⟨.nativeLegacy, "qwen-max",
   some "https://dashscope.aliyuncs.com/compatible-mode/v1", "cred-3", 7, 2000⟩

/-- A chat request over the legacy-kind, marker-URL profile. -/
def legacyMarkerRequest : ChatRequest :=
  ⟨[⟨.user, "hello"⟩], legacyMarkerProfile, false⟩

/-- C3 counterexample: a legacy-kind profile whose base URL contains the
compatibility marker is captured by dispatch rule 1, so its single request
carries no input wrapper at all and targets base/chat/completions — the
claim fails for this legacy profile. -/
theorem legacy_marker_counterexample :
    legacyMarkerRequest.profile.kind = .nativeLegacy ∧
    (buildHttpRequest none legacyMarkerRequest).body.getField "input" = none ∧
    (buildHttpRequest none legacyMarkerRequest).url =
      "https://dashscope.aliyuncs.com/compatible-mode/v1" ++ compatSuffix ∧
    (dispatch legacyMarkerRequest.profile).shape = .compatible :=
  ⟨rfl, rfl, rfl, rfl⟩

/-- A legacy-kind profile with no base URL set. -/
def legacyDefaultProfile : ProviderProfile :=
  ⟨.nativeLegacy, "qwen-plus", none, "cred-4", 7, 2000⟩

/-- A chat request over the legacy-kind default profile with the round-trip
history. -/
def legacyDefaultRequest : ChatRequest := ⟨roundHistory, legacyDefaultProfile, false⟩

/-- C3 amended: for a legacy-kind profile not captured by the
compatibility-marker rule (base URL absent, or present without the marker),
send issues a single request wrapping the messages inside input.messages,
targeting the native completion path, which differs from the
chat/completions path of the compatible shape. -/
theorem send_legacy_wraps_input (key : Option String)
    (transport : HttpRequest → TransportOutcome) (req : ChatRequest)
    (hk : req.profile.kind = .nativeLegacy)
    (hm : req.profile.baseUrl = none ∨
      ∃ b, req.profile.baseUrl = some b ∧ containsMarker b = false) :
    ∃ r, (sendTrace key transport req).2 = [r] ∧
      r.body.getField "input" =
        some (Json.obj [("messages", Json.arr (req.messages.map messageJson))]) ∧
      r.url = nativeCompletionUrl req.profile ∧
      r.url ≠ (req.profile.baseUrl.getD (defaultBaseUrl .nativeLegacy)) ++
        compatSuffix ∧
      (dispatch req.profile).shape = .native := by
  have hd : dispatch req.profile = ⟨.native, nativeCompletionUrl req.profile⟩ := by
    unfold dispatch nativeCompletionUrl
    rcases hm with hb | ⟨b, hb, hcm⟩
    · rw [hb]
      simp [hk]
    · rw [hb]
      simp [hk, hcm]
  have hreq : buildHttpRequest key req =
      ⟨"POST", nativeCompletionUrl req.profile, authHeaders key,
       nativeBody req.profile req.messages⟩ := by
    simp [buildHttpRequest, hd]
  have hurl : nativeCompletionUrl req.profile =
      (req.profile.baseUrl.getD (defaultBaseUrl .nativeLegacy)) ++ legacySuffix := rfl
  refine ⟨buildHttpRequest key req, rfl, ?_, ?_, ?_, ?_⟩
  · rw [hreq]; rfl
  · rw [hreq]
  · rw [hreq]
    show nativeCompletionUrl req.profile ≠ _
    rw [hurl]
    exact append_ne_of_suffix_ne (by decide)
  · rw [hd]

/-- Witness for C3 amended: the legacy wrapping evaluated at a concrete
legacy-kind profile with no base URL. -/
theorem send_legacy_wraps_input_witness :
    legacyDefaultRequest.profile.kind = .nativeLegacy ∧
    (legacyDefaultRequest.profile.baseUrl = none ∨
      ∃ b, legacyDefaultRequest.profile.baseUrl = some b ∧
        containsMarker b = false) ∧
    (∃ r, (sendTrace none failTransport legacyDefaultRequest).2 = [r] ∧
      r.body.getField "input" =
        some (Json.obj
          [("messages", Json.arr (legacyDefaultRequest.messages.map messageJson))]) ∧
      r.url = nativeCompletionUrl legacyDefaultRequest.profile ∧
      r.url ≠ (legacyDefaultRequest.profile.baseUrl.getD
        (defaultBaseUrl .nativeLegacy)) ++ compatSuffix ∧
      (dispatch legacyDefaultRequest.profile).shape = .native) :=
  ⟨rfl, Or.inl rfl,
   send_legacy_wraps_input none failTransport legacyDefaultRequest rfl
     (Or.inl rfl)⟩

/-- A mocked OpenAI-compatible transport answering 200 with
choices[0].message.content = "hi". -/
def compatMockTransport : HttpRequest → TransportOutcome := fun _ =>
  .ok ⟨200, .obj [("choices",
    .arr [.obj [("message", .obj [("content", .str "hi")])]])]⟩

/-- A mocked legacy transport answering 200 with output.text = "hi". -/
def legacyMockTransport : HttpRequest → TransportOutcome := fun _ =>
  .ok ⟨200, .obj [("output", .obj [("text", .str "hi")])]⟩

/-- C4: over the fixed system/user history, a mocked OpenAI-compatible
transport answering choices[0].message.content = "hi" and a mocked legacy
transport answering output.text = "hi" both normalize to a NormalizedResult
with content "hi". -/
theorem send_round_trip_normalizes :
    (∃ r, send (some "sk-test") compatMockTransport markerRequest =
       Except.ok r ∧ r.content = "hi") ∧
    (∃ r, send (some "sk-test") legacyMockTransport legacyDefaultRequest =
       Except.ok r ∧ r.content = "hi") :=
  ⟨⟨⟨"hi", none⟩, rfl, rfl⟩, ⟨⟨"hi", none⟩, rfl, rfl⟩⟩

/-- C10: a 401 HTTP response through the shared axios client clears the
stored token, redirects the window to /login, and is still rejected to the
caller — never resolved as a successful value. -/
theorem intercept_401_logout_redirect (st : FrontendState)
    (resp : HttpResponse) (h : resp.status = 401) :
    interceptResponse st (.response resp) =
      (⟨none, "/login"⟩, .rejected ⟨some resp⟩) ∧
    ∀ st' d, interceptResponse st (.response resp) ≠ (st', .resolved d) := by
  have h1 : interceptResponse st (.response resp) =
      (⟨none, "/login"⟩, .rejected ⟨some resp⟩) := by
    simp only [interceptResponse, axiosSettle]
    rw [h]
    simp [is2xx, onRejected, logout, h]
  refine ⟨h1, ?_⟩
  intro st' d hne
  rw [h1] at hne
  have h2 := congrArg Prod.snd hne
  simp at h2

/-- Witness for C10: the 401 interception evaluated at a concrete logged-in
state and a concrete 401 response. -/
theorem intercept_401_logout_redirect_witness :
    (HttpResponse.mk 401 Json.null).status = 401 ∧
    (interceptResponse ⟨some "tok", "/chat"⟩ (.response ⟨401, Json.null⟩) =
       (⟨none, "/login"⟩, .rejected ⟨some ⟨401, Json.null⟩⟩) ∧
     ∀ st' d, interceptResponse ⟨some "tok", "/chat"⟩
       (.response ⟨401, Json.null⟩) ≠ (st', .resolved d)) :=
  ⟨rfl, intercept_401_logout_redirect ⟨some "tok", "/chat"⟩ ⟨401, Json.null⟩ rfl⟩

end CoreMind
